import Mathlib

/-!
Shallow embedding of `src/repository/metricsRepository.py` (class
`MetricsRepository`) from the bridge-backend repository, together with the
theorems settling the frozen claims about it.

Modelling conventions:
* Python values appearing in metric records are embedded as `PyVal`
  (`int`, `bool`, `str`, `float`, `None`); Python floats are modelled by
  exact rationals, and score averages (`sum(..)/len(..)`) are computed in
  `Rat`.
* A Python dict is an association list whose later literal entries
  overwrite earlier ones with the same key (`dictLit`); this matters for
  `get_metrics_by_score_range`, whose params dict literal repeats the key
  `score_field`.
* The query-string values `f"eq.{x}"`, `f"gte.{n}"`, `f"lte.{n}"` that the
  code builds and the store parses back are modelled structurally by
  `ParamVal.eq`, `ParamVal.gte`, `ParamVal.lte`.
* The HTTP transport is a parameter of each operation: a function from the
  request parameters to an outcome, where the outcome is either a response
  (status plus parsed JSON body) or a raised exception (`.exc`).  Each
  operation also returns the list of requests it issued, so that claims
  about "no network call" / "exactly one write" are statable.
* Python exceptions inside an operation body are embedded with
  `Except PyExc`; the `try/except Exception` wrapper of each public method
  maps any error to the method's declared empty result.  Where a raised
  exception only short-circuits to the handler, the embedding returns the
  handler's value directly at the raise site (with a comment).
-/

namespace MetricsRepo

/-- Embedded Python values as they occur in metric records and payloads. -/
inductive PyVal where
  | int (n : Int)
  | bool (b : Bool)
  | str (s : String)
  | float (q : Rat)
  | none
deriving DecidableEq, Repr

/-- A JSON object / Python dict of record fields, as an association list. -/
abbrev Record := List (String × PyVal)

/-- Python `d.get(k)` / `k in d` lookup on a record. -/
def rget (r : Record) (k : String) : Option PyVal :=
  (r.find? (fun p => p.1 == k)).map (fun p => p.2)

/-- Python `isinstance(v, int)`: `bool` is a subclass of `int` in Python,
so `True` and `False` pass this check. -/
def isInstInt : PyVal → Bool
  | PyVal.int _ => true
  | PyVal.bool _ => true
  | _ => false

/-- Structural embedding of the query-parameter values the code builds:
`"*"` and the stringified `limit`/`offset` stay opaque data, while the
operator-prefixed filter strings are kept structurally. -/
inductive ParamVal where
  | str (s : String)
  | int (n : Int)
  | eq (v : String)
  | gte (n : Int)
  | lte (n : Int)
deriving DecidableEq, Repr

/-- A request-params dict, as an association list. -/
abbrev Params := List (String × ParamVal)

/-- One insertion into a Python dict: overwrite an existing key in place,
otherwise append. -/
def dictInsert (d : Params) (k : String) (v : ParamVal) : Params :=
  if d.any (fun p => p.1 == k) then d.map (fun p => if p.1 == k then (k, v) else p)
  else d ++ [(k, v)]

/-- A Python dict literal: entries inserted left to right, so a repeated
key keeps only the last value. -/
def dictLit (entries : Params) : Params :=
  entries.foldl (fun d p => dictInsert d p.1 p.2) []

/-- Dict lookup on params. -/
def dlookup (params : Params) (k : String) : Option ParamVal :=
  (params.find? (fun p => p.1 == k)).map (fun p => p.2)

/-- Outcome of one `requests.get` call: a raised exception, or a response
with a status code and a parsed JSON array of records. -/
inductive GetOutcome where
  | exc
  | resp (status : Nat) (body : List Record)

/-- The GET transport: what the remote store answers for given params. -/
abbrev GetTransport := Params → GetOutcome

/-- Parsed JSON body of a POST response: the store may echo the created
row(s) as an array or as a single object. -/
inductive PostBody where
  | arr (rs : List Record)
  | obj (r : Record)
deriving DecidableEq, Repr

/-- Outcome of one `requests.post` call. -/
inductive PostOutcome where
  | exc
  | resp (status : Nat) (body : PostBody)

/-- The POST transport: what the store answers to a posted JSON payload. -/
abbrev PostTransport := Record → PostOutcome

/-- Embedded Python exceptions that the method bodies can raise. -/
inductive PyExc where
  | valueError
  | typeError
  | requestException
deriving DecidableEq, Repr

/-- `required_fields` of `create_metric`. -/
def required_fields : List String :=
  ["repoID", "importID", "commitHistScore", "complexityScore"]

/-- `valid_score_fields` of `get_metrics_by_score_range`. -/
def valid_score_fields : List String :=
  ["commitHistScore", "complexityScore", "churnScore", "totalScore", "packageVersionScore"]

/-- `score_fields` of the two summary methods (same five names). -/
def score_fields : List String := valid_score_fields

/-- All four required fields are present in the payload. -/
def requiredPresent (d : Record) : Bool :=
  required_fields.all (fun f => (rget d f).isSome)

/-- `isinstance(metric_data[f], int)` for a field known to be present. -/
def scoreIsIntAt (d : Record) (f : String) : Bool :=
  match rget d f with
  | some v => isInstInt v
  | none => false

/-- The payload passes all of `create_metric`'s validation. -/
def validPayload (d : Record) : Bool :=
  requiredPresent d && scoreIsIntAt d "commitHistScore" && scoreIsIntAt d "complexityScore"

/--
`create_metric(metric_data)`: validates the payload, posts it, and on 201
returns the echoed record (`created_metric[0]` if the body is a list).
Each `raise ValueError` lands in the method's own `except Exception`
handler, which returns `None`; `created_metric[0]` on an empty list raises
`IndexError`, likewise caught and turned into `None`.
The second component is the list of payloads actually posted.
-/
def create_metric (metric_data : Record) (post : PostTransport) :
    Option Record × List Record :=
  if ¬ requiredPresent metric_data then (none, [])
  else if ¬ scoreIsIntAt metric_data "commitHistScore" then (none, [])
  else if ¬ scoreIsIntAt metric_data "complexityScore" then (none, [])
  else
    match post metric_data with
    | PostOutcome.exc => (none, [metric_data])
    | PostOutcome.resp status body =>
      if status = 201 then
        match body with
        | PostBody.arr [] => (none, [metric_data])
        | PostBody.arr (r :: _) => (some r, [metric_data])
        | PostBody.obj r => (some r, [metric_data])
      else (none, [metric_data])

/--
`get_metric_by_keys(repo_id, import_id)`: equality filter on both key
fields; on a 200 response, `data[0]` if the list is non-empty, else
`None`; `None` on any other status or a raised exception.
-/
def get_metric_by_keys (repo_id import_id : String) (net : GetTransport) :
    Option Record × List Params :=
  let params : Params :=
    [("repoID", ParamVal.eq repo_id), ("importID", ParamVal.eq import_id),
     ("select", ParamVal.str "*")]
  match net params with
  | GetOutcome.exc => (none, [params])
  | GetOutcome.resp status data =>
    if status = 200 then (data.head?, [params]) else (none, [params])

/-- `get_metrics_by_repo(repo_id, limit=100, offset=0)`. -/
def get_metrics_by_repo (repo_id : String) (limit offset : Int) (net : GetTransport) :
    List Record × List Params :=
  let params : Params :=
    [("repoID", ParamVal.eq repo_id), ("select", ParamVal.str "*"),
     ("limit", ParamVal.int limit), ("offset", ParamVal.int offset)]
  match net params with
  | GetOutcome.exc => ([], [params])
  | GetOutcome.resp status data =>
    if status = 200 then (data, [params]) else ([], [params])

/-- `get_metrics_by_import(import_id, limit=100, offset=0)`. -/
def get_metrics_by_import (import_id : String) (limit offset : Int) (net : GetTransport) :
    List Record × List Params :=
  let params : Params :=
    [("importID", ParamVal.eq import_id), ("select", ParamVal.str "*"),
     ("limit", ParamVal.int limit), ("offset", ParamVal.int offset)]
  match net params with
  | GetOutcome.exc => ([], [params])
  | GetOutcome.resp status data =>
    if status = 200 then (data, [params]) else ([], [params])

/-- `get_all_metrics(limit=100, offset=0)`. -/
def get_all_metrics (limit offset : Int) (net : GetTransport) :
    List Record × List Params :=
  let params : Params :=
    [("select", ParamVal.str "*"), ("limit", ParamVal.int limit),
     ("offset", ParamVal.int offset)]
  match net params with
  | GetOutcome.exc => ([], [params])
  | GetOutcome.resp status data =>
    if status = 200 then (data, [params]) else ([], [params])

/--
`get_metrics_by_score_range(score_field, min_score, max_score)`: rejects
unknown field names (the raised `ValueError` is caught by the method's own
handler, which returns `[]` — no request is issued).  The params dict
literal repeats the key `score_field`, so `dictLit` keeps only the later
`lte` entry, exactly as Python's dict construction does.
-/
def get_metrics_by_score_range (score_field : String) (min_score max_score : Int)
    (net : GetTransport) : List Record × List Params :=
  if score_field ∈ valid_score_fields then
    let params : Params :=
      dictLit [("select", ParamVal.str "*"), (score_field, ParamVal.gte min_score),
               (score_field, ParamVal.lte max_score)]
    match net params with
    | GetOutcome.exc => ([], [params])
    | GetOutcome.resp status data =>
      if status = 200 then (data, [params]) else ([], [params])
  else ([], [])

/-- Numeric view of a Python value, for `sum(...)`: ints and bools (which
count as 0/1) and floats are numbers; anything else makes `sum` raise. -/
def pyNum? : PyVal → Option Rat
  | PyVal.int n => some (n : Rat)
  | PyVal.bool b => some (if b then 1 else 0)
  | PyVal.float q => some q
  | _ => none

/-- Python `sum(l)` as a left fold from an accumulator, raising
`TypeError` on a non-numeric element. -/
def pySum : List PyVal → Rat → Except PyExc Rat
  | [], acc => Except.ok acc
  | v :: vs, acc =>
    match pyNum? v with
    | some q => pySum vs (acc + q)
    | none => Except.error PyExc.typeError

/-- `[metric[field] for metric in metrics if metric.get(field) is not None]`:
the field values that are present and not null. -/
def nonNullVals (ms : List Record) (f : String) : List PyVal :=
  ms.filterMap (fun m =>
    match rget m f with
    | some PyVal.none => none
    | some v => some v
    | none => none)

/-- One iteration of the averaging loop for one score field:
`sum(valid_scores) / len(valid_scores)` when any valid score exists,
`None` otherwise. -/
def avgField (ms : List Record) (f : String) : Except PyExc (Option Rat) :=
  let valid := nonNullVals ms f
  if valid.isEmpty then Except.ok none
  else (pySum valid 0).map (fun s => some (s / (valid.length : Rat)))

/-- The `for field in score_fields` loop building the `avg_scores` dict:
field names are distinct, so the dict is this ordered association list. -/
def buildAvgScores (ms : List Record) : List String → Except PyExc (List (String × Option Rat))
  | [] => Except.ok []
  | f :: fs => do
    let a ← avgField ms f
    let rest ← buildAvgScores ms fs
    Except.ok (("avg_" ++ f, a) :: rest)

/-- `count_header.split('/')[-1]`: the segment after the last slash (the
whole string when no slash occurs). -/
def lastSegment : List Char → List Char → List Char
  | [], acc => acc.reverse
  | c :: cs, acc => if c = '/' then lastSegment cs [] else lastSegment cs (c :: acc)

/-- Decimal digits to a number; fails on any non-digit. -/
def natOfDigits : List Char → Nat → Option Nat
  | [], acc => some acc
  | c :: cs, acc =>
    if c.isDigit then natOfDigits cs (acc * 10 + (c.toNat - 48)) else none

/-- Python `int(s)` on a plain optionally-signed decimal string (the
`None` case is the raised `ValueError`). -/
def parsePyInt : List Char → Option Int
  | [] => none
  | c :: rest =>
    if c = '-' then
      match rest with
      | [] => none
      | _ => (natOfDigits rest 0).map (fun n => -(n : Int))
    else (natOfDigits (c :: rest) 0).map (fun n => (n : Int))

/-- `int(count_header.split('/')[-1])`, as an optional parse. -/
def contentRangeTotal (h : String) : Option Int :=
  parsePyInt (lastSegment h.data [])

/-- Outcome of the count request of `get_metrics_summary`: a raised
exception, or a response with a status and an optional content-range
header value. -/
inductive CountOutcome where
  | exc
  | resp (status : Nat) (contentRange : Option String)

/-- The `total_count` segment of `get_metrics_summary`: 0 unless the count
response is a 200 carrying a content-range header, whose part after the
last slash is parsed with `int(...)`. -/
def countTotal : CountOutcome → Except PyExc Int
  | CountOutcome.exc => Except.error PyExc.requestException
  | CountOutcome.resp status contentRange =>
    if status = 200 then
      match contentRange with
      | some h =>
        match contentRangeTotal h with
        | some n => Except.ok n
        | none => Except.error PyExc.valueError
      | none => Except.ok 0
    else Except.ok 0

/-- Return shape of `get_metrics_summary`. -/
structure Summary where
  total_count : Int
  average_scores : List (String × Option Rat)
deriving DecidableEq, Repr

/-- Return shape of `get_repo_metrics_summary`. -/
structure RepoSummary where
  repo_id : String
  metric_count : Nat
  average_scores : List (String × Option Rat)
deriving DecidableEq, Repr

/-- Body of `get_metrics_summary` inside its `try`: count request, then a
records fetch via `get_all_metrics(limit=1000)` (which absorbs its own
transport errors), then the averaging loop; `avg_scores` exists in
`locals()` exactly when the fetch was non-empty. -/
def get_metrics_summary_try (cn : CountOutcome) (net : GetTransport) :
    Except PyExc Summary := do
  let total_count ← countTotal cn
  let all_metrics := (get_all_metrics 1000 0 net).1
  if all_metrics.isEmpty then
    Except.ok { total_count := total_count, average_scores := [] }
  else do
    let avg ← buildAvgScores all_metrics score_fields
    Except.ok { total_count := total_count, average_scores := avg }

/-- `get_metrics_summary()`: the `except Exception` handler returns the
zeroed summary. -/
def get_metrics_summary (cn : CountOutcome) (net : GetTransport) : Summary :=
  match get_metrics_summary_try cn net with
  | Except.ok s => s
  | Except.error _ => { total_count := 0, average_scores := [] }

/-- Body of `get_repo_metrics_summary` inside its `try`: fetch via
`get_metrics_by_repo(repo_id)` at the default `limit=100, offset=0`, then
the same averaging loop. -/
def get_repo_metrics_summary_try (repo_id : String) (net : GetTransport) :
    Except PyExc RepoSummary := do
  let metrics := (get_metrics_by_repo repo_id 100 0 net).1
  if metrics.isEmpty then
    Except.ok { repo_id := repo_id, metric_count := 0, average_scores := [] }
  else do
    let avg ← buildAvgScores metrics score_fields
    Except.ok { repo_id := repo_id, metric_count := metrics.length, average_scores := avg }

/-- `get_repo_metrics_summary(repo_id)`: the `except Exception` handler
returns the zeroed repo summary. -/
def get_repo_metrics_summary (repo_id : String) (net : GetTransport) : RepoSummary :=
  match get_repo_metrics_summary_try repo_id net with
  | Except.ok s => s
  | Except.error _ => { repo_id := repo_id, metric_count := 0, average_scores := [] }

/-- String form of a Python value, as interpolated into `f"eq.{x}"`. -/
def pyValToStr : PyVal → String
  | PyVal.str s => s
  | PyVal.int n => toString n
  | PyVal.bool b => if b then "True" else "False"
  | PyVal.float q => toString q
  | PyVal.none => "None"

/-- A record field equals a given identifier under the store's `eq.`
filter (identifiers are compared as their string form). -/
def matchesEq (r : Record) (k v : String) : Bool :=
  match rget r k with
  | some pv => pyValToStr pv == v
  | none => false

/-- Modelled from the spec: whether one query parameter, applied as a
PostgREST-style filter, accepts a record.  `eq.` compares the string form
of the field, `gte.`/`lte.` compare integer score fields inclusively;
non-filter values restrict nothing.  (The remote store itself is not part
of src/; §6 of the spec defines this contract.) -/
def passesFilter (r : Record) (k : String) : ParamVal → Bool
  | ParamVal.eq v => matchesEq r k v
  | ParamVal.gte m =>
    match rget r k with
    | some (PyVal.int n) => m ≤ n
    | _ => false
  | ParamVal.lte m =>
    match rget r k with
    | some (PyVal.int n) => n ≤ m
    | _ => false
  | _ => true

/-- Keys that are store directives rather than column filters. -/
def isFilterKey (k : String) : Bool :=
  !(k == "select" || k == "limit" || k == "offset" || k == "count")

/-- Modelled from the spec: the store's answer to a GET — apply every
column filter, then `offset`, then `limit` (§6: filtering with
`eq./gte./lte.`, pagination with `limit`/`offset`). -/
def storeGet (store : List Record) (params : Params) : List Record :=
  let filters := params.filter (fun p => isFilterKey p.1)
  let rows := store.filter (fun r => filters.all (fun p => passesFilter r p.1 p.2))
  let rows :=
    match dlookup params "offset" with
    | some (ParamVal.int o) => rows.drop o.toNat
    | _ => rows
  match dlookup params "limit" with
  | some (ParamVal.int l) => rows.take l.toNat
  | _ => rows

/-- A healthy transport backed by a concrete store: every GET succeeds
with status 200 and the rows `storeGet` selects. -/
def storeTransport (store : List Record) : GetTransport :=
  fun params => GetOutcome.resp 200 (storeGet store params)

/-- Specification-side arithmetic mean of the non-null values of one score
field: the sum of the numeric values divided by how many there are, or
`None` when there is no observation. -/
def specMean (ms : List Record) (f : String) : Option Rat :=
  let vs := (nonNullVals ms f).filterMap pyNum?
  if vs.isEmpty then none else some (vs.sum / (vs.length : Rat))

/-- Specification-side `average_scores` mapping: empty when no record was
fetched, otherwise one `avg_<field>` entry per score field. -/
def expectedAvgScores (ms : List Record) : List (String × Option Rat) :=
  if ms.isEmpty then []
  else score_fields.map (fun f => ("avg_" ++ f, specMean ms f))

/-- Every present, non-null score-field value of the records is numeric
(the data model stores integers there; a non-numeric value would make
Python's `sum` raise `TypeError`). -/
def scoresNumeric (ms : List Record) : Prop :=
  ∀ f ∈ score_fields, ∀ v ∈ nonNullVals ms f, (pyNum? v).isSome = true

instance (ms : List Record) : Decidable (scoresNumeric ms) := by
  unfold scoresNumeric
  infer_instance

/-- The record echoed back by the store on a successful insert: the first
element of an array body, or the object itself. -/
def echoRecord : PostBody → Option Record
  | PostBody.arr rs => rs.head?
  | PostBody.obj r => some r

theorem pySum_ok : ∀ (l : List PyVal) (acc : Rat),
    (∀ v ∈ l, (pyNum? v).isSome = true) →
    pySum l acc = Except.ok (acc + (l.filterMap pyNum?).sum)
  | [], acc, _ => by simp [pySum]
  | v :: vs, acc, h => by
    obtain ⟨q, hq⟩ := Option.isSome_iff_exists.mp (h v (List.mem_cons_self v vs))
    have ih := pySum_ok vs (acc + q) (fun w hw => h w (List.mem_cons_of_mem v hw))
    simp only [pySum, hq, ih, List.filterMap_cons, List.sum_cons, Except.ok.injEq]
    ring

theorem filterMap_pyNum_length (l : List PyVal)
    (h : ∀ v ∈ l, (pyNum? v).isSome = true) :
    (l.filterMap pyNum?).length = l.length := by
  induction l with
  | nil => rfl
  | cons v vs ih =>
    obtain ⟨q, hq⟩ := Option.isSome_iff_exists.mp (h v (List.mem_cons_self v vs))
    simp [List.filterMap_cons, hq, ih (fun w hw => h w (List.mem_cons_of_mem v hw))]

theorem avgField_ok (ms : List Record) (f : String)
    (h : ∀ v ∈ nonNullVals ms f, (pyNum? v).isSome = true) :
    avgField ms f = Except.ok (specMean ms f) := by
  unfold avgField specMean
  by_cases he : (nonNullVals ms f).isEmpty
  · have hnil : nonNullVals ms f = [] := List.isEmpty_iff.mp he
    simp [hnil]
  · have hlen := filterMap_pyNum_length (nonNullVals ms f) h
    have hne : nonNullVals ms f ≠ [] := by
      intro h0; rw [h0] at he; exact he rfl
    have he2 : ((nonNullVals ms f).filterMap pyNum?).isEmpty = false := by
      cases hfm : (nonNullVals ms f).filterMap pyNum? with
      | nil =>
        exfalso
        have h0 := congrArg List.length hfm
        rw [hlen] at h0
        exact hne (List.length_eq_zero.mp h0)
      | cons a as => rfl
    simp only [he, Bool.false_eq_true, if_false, he2, hlen]
    rw [pySum_ok (nonNullVals ms f) 0 h]
    simp only [zero_add]
    rfl

theorem buildAvgScores_ok (ms : List Record) : ∀ (fs : List String),
    (∀ f ∈ fs, ∀ v ∈ nonNullVals ms f, (pyNum? v).isSome = true) →
    buildAvgScores ms fs = Except.ok (fs.map (fun f => ("avg_" ++ f, specMean ms f)))
  | [], _ => rfl
  | f :: fs, h => by
    have ih := buildAvgScores_ok ms fs (fun g hg => h g (List.mem_cons_of_mem f hg))
    have ha := avgField_ok ms f (h f (List.mem_cons_self f fs))
    simp only [buildAvgScores, ha, ih, List.map_cons]
    rfl

theorem get_metric_by_keys_store (store : List Record) (rid iid : String) :
    (get_metric_by_keys rid iid (storeTransport store)).1
      = (store.filter (fun r => matchesEq r "repoID" rid && matchesEq r "importID" iid)).head? := by
  have h : (get_metric_by_keys rid iid (storeTransport store)).1
      = (store.filter (fun r =>
          matchesEq r "repoID" rid && (matchesEq r "importID" iid && true))).head? := rfl
  rw [h]
  simp only [Bool.and_true]

theorem get_metrics_by_repo_store (store : List Record) (rid : String) (limit offset : Int) :
    (get_metrics_by_repo rid limit offset (storeTransport store)).1
      = (((store.filter (fun r => matchesEq r "repoID" rid)).drop offset.toNat).take
          limit.toNat) := by
  have h : (get_metrics_by_repo rid limit offset (storeTransport store)).1
      = (((store.filter (fun r => matchesEq r "repoID" rid && true)).drop offset.toNat).take
          limit.toNat) := rfl
  rw [h]
  simp only [Bool.and_true]

theorem get_all_metrics_store (store : List Record) (limit offset : Int) :
    (get_all_metrics limit offset (storeTransport store)).1
      = ((store.drop offset.toNat).take limit.toNat) := by
  have h : (get_all_metrics limit offset (storeTransport store)).1
      = (((store.filter (fun _ => true)).drop offset.toNat).take limit.toNat) := rfl
  rw [h]
  simp only [List.filter_true]

/-- C1: the claim says `get_metrics_by_score_range` sends both a `gte`
lower-bound and an `lte` upper-bound filter, so only records inside
`[min_score, max_score]` come back.  In the code, both filters share the
dict key `score_field`, so the `gte` entry is overwritten: against a store
holding one record with `totalScore = 0`, the call with range `[5, 10]`
issues a single request whose only filter is `lte.10` (no `gte` entry at
all) and returns that out-of-range record. -/
theorem C1_score_range_lower_bound_lost :
    get_metrics_by_score_range "totalScore" 5 10
      (storeTransport [[("repoID", PyVal.str "r"), ("totalScore", PyVal.int 0)]])
    = ([[("repoID", PyVal.str "r"), ("totalScore", PyVal.int 0)]],
       [[("select", ParamVal.str "*"), ("totalScore", ParamVal.lte 10)]]) := by
  decide

set_option maxRecDepth 100000 in
/-- C2 (counterexample): the claim says `metric_count` equals the total
number of the repository's records in the store, with no cap.  Against a
store holding 101 records for repo `"r"`, `get_repo_metrics_summary`
reports `metric_count = 100` (the default `limit=100` of the underlying
`get_metrics_by_repo` call), while 101 records match in the store. -/
theorem C2_counterexample_cap_at_100 :
    (get_repo_metrics_summary "r"
      (storeTransport (List.replicate 101 [("repoID", PyVal.str "r")]))).metric_count = 100
    ∧ ((List.replicate 101 ([("repoID", PyVal.str "r")] : Record)).filter
        (fun r => matchesEq r "repoID" "r")).length = 101 := by
  decide

/-- C2 (amended): `get_repo_metrics_summary(repoID)` computes both
`metric_count` and the per-field averages over the records fetched by
`get_metrics_by_repo` at its default `limit=100, offset=0`: the whole
summary equals the repo id, the number of the repository's records in the
store capped at 100, and the expected averages taken over that capped
set, provided the fetched score values are numeric. -/
theorem C2_repo_summary_count_capped (store : List Record) (rid : String)
    (hn : scoresNumeric ((store.filter (fun r => matchesEq r "repoID" rid)).take 100)) :
    get_repo_metrics_summary rid (storeTransport store)
      = { repo_id := rid,
          metric_count := min 100 (store.filter (fun r => matchesEq r "repoID" rid)).length,
          average_scores :=
            expectedAvgScores ((store.filter (fun r => matchesEq r "repoID" rid)).take 100) } := by
  have hm : (get_metrics_by_repo rid 100 0 (storeTransport store)).1
      = (store.filter (fun r => matchesEq r "repoID" rid)).take 100 := by
    rw [get_metrics_by_repo_store]
    simp
  have hmin : ((store.filter (fun r => matchesEq r "repoID" rid)).take 100).length
      = min 100 (store.filter (fun r => matchesEq r "repoID" rid)).length :=
    List.length_take _ _
  unfold get_repo_metrics_summary get_repo_metrics_summary_try
  rw [hm, ← hmin]
  by_cases hF : (store.filter (fun r => matchesEq r "repoID" rid)).take 100 = []
  · rw [hF]
    simp [expectedAvgScores]
  · have hne : ((store.filter (fun r => matchesEq r "repoID" rid)).take 100).isEmpty = false := by
      cases hc : (store.filter (fun r => matchesEq r "repoID" rid)).take 100 with
      | nil => exact absurd hc hF
      | cons a as => rfl
    simp only [hne, Bool.false_eq_true, if_false, expectedAvgScores]
    rw [buildAvgScores_ok ((store.filter (fun r => matchesEq r "repoID" rid)).take 100)
      score_fields hn]
    rfl

/-- C3: a payload missing one of the four required fields, or whose
`commitHistScore` or `complexityScore` is present but fails the
`isinstance(..., int)` check, makes `create_metric` return `None` without
issuing any write. -/
theorem C3_create_metric_rejects_invalid (d : Record) (post : PostTransport)
    (h : (∃ f ∈ required_fields, rget d f = none)
      ∨ (∃ v, rget d "commitHistScore" = some v ∧ isInstInt v = false)
      ∨ (∃ v, rget d "complexityScore" = some v ∧ isInstInt v = false)) :
    create_metric d post = (none, []) := by
  unfold create_metric
  rcases h with ⟨f, hf, hnone⟩ | ⟨v, hv, hni⟩ | ⟨v, hv, hni⟩
  · have hreq : requiredPresent d = false := by
      by_contra hT
      have hT2 : requiredPresent d = true := by
        cases hb : requiredPresent d with
        | true => rfl
        | false => exact absurd hb hT
      have := List.all_eq_true.mp hT2 f hf
      rw [hnone] at this
      simp at this
    simp [hreq]
  · have hsc : scoreIsIntAt d "commitHistScore" = false := by
      simp [scoreIsIntAt, hv, hni]
    by_cases hr : requiredPresent d <;> simp [hr, hsc]
  · have hsc : scoreIsIntAt d "complexityScore" = false := by
      simp [scoreIsIntAt, hv, hni]
    by_cases hr : requiredPresent d <;>
      by_cases hc : scoreIsIntAt d "commitHistScore" <;> simp [hr, hc, hsc]

/-- C3 witness: a payload with `importID` missing, and a payload whose
`commitHistScore` is the string `"5"`, are both rejected with no write. -/
theorem C3_witness :
    create_metric [("repoID", PyVal.str "r")] (fun _ => PostOutcome.exc) = (none, [])
    ∧ create_metric
        [("repoID", PyVal.str "r"), ("importID", PyVal.str "i"),
         ("commitHistScore", PyVal.str "5"), ("complexityScore", PyVal.int 3)]
        (fun _ => PostOutcome.exc) = (none, []) :=
  ⟨C3_create_metric_rejects_invalid _ _ (Or.inl ⟨"importID", by decide, by decide⟩),
   C3_create_metric_rejects_invalid _ _
     (Or.inr (Or.inl ⟨PyVal.str "5", by decide, by decide⟩))⟩

/-- C7: an unrecognized score-field name makes `get_metrics_by_score_range`
return `[]` with no request issued. -/
theorem C7_invalid_score_field_no_call (sf : String) (mn mx : Int) (net : GetTransport)
    (h : sf ∉ valid_score_fields) :
    get_metrics_by_score_range sf mn mx net = ([], []) := by
  unfold get_metrics_by_score_range
  rw [if_neg h]

/-- C7 witness: the field name `"score"` is rejected without a request. -/
theorem C7_witness :
    get_metrics_by_score_range "score" 0 10 (fun _ => GetOutcome.exc) = ([], []) :=
  C7_invalid_score_field_no_call "score" 0 10 _ (by decide)

/-- C4: a payload with the four required fields present and integral
scores makes `create_metric` issue exactly one write; when the store
answers 201 with a non-empty echo it returns the echoed record (first
element of an array body, or the object itself), and on any other status
it returns `None`. -/
theorem C4_create_metric_one_write_echo (d : Record) (post : PostTransport)
    (hv : validPayload d = true) :
    (create_metric d post).2 = [d]
    ∧ (∀ st body, post d = PostOutcome.resp st body → body ≠ PostBody.arr [] →
        (create_metric d post).1 = if st = 201 then echoRecord body else none) := by
  have h3 : scoreIsIntAt d "complexityScore" = true := by
    have := hv
    unfold validPayload at this
    exact (Bool.and_eq_true _ _ |>.mp this).2
  have h12 := (Bool.and_eq_true _ _ |>.mp
    ((Bool.and_eq_true _ _ |>.mp (by unfold validPayload at hv; exact hv)).1))
  have h1 : requiredPresent d = true := h12.1
  have h2 : scoreIsIntAt d "commitHistScore" = true := h12.2
  constructor
  · unfold create_metric
    simp only [h1, h2, h3, not_true, if_false, Bool.true_eq_false, ite_false]
    cases hp : post d with
    | exc => rfl
    | resp st body =>
      by_cases hs : st = 201
      · cases body with
        | arr rs => cases rs <;> simp [hs]
        | obj r => simp [hs]
      · simp [hs]
  · intro st body hp hne
    unfold create_metric
    simp only [h1, h2, h3, not_true, if_false, Bool.true_eq_false, ite_false, hp]
    by_cases hs : st = 201
    · cases body with
      | arr rs =>
        cases rs with
        | nil => exact absurd rfl hne
        | cons a as => simp [hs, echoRecord]
      | obj r => simp [hs, echoRecord]
    · simp [hs]

/-- C4 witness: a concrete valid payload is posted once and the
201-echoed object comes back. -/
theorem C4_witness :
    (create_metric
      [("repoID", PyVal.str "r"), ("importID", PyVal.str "i"),
       ("commitHistScore", PyVal.int 1), ("complexityScore", PyVal.int 2)]
      (fun _ => PostOutcome.resp 201 (PostBody.obj [("repoID", PyVal.str "r")]))).2
    = [[("repoID", PyVal.str "r"), ("importID", PyVal.str "i"),
        ("commitHistScore", PyVal.int 1), ("complexityScore", PyVal.int 2)]]
    ∧ (create_metric
      [("repoID", PyVal.str "r"), ("importID", PyVal.str "i"),
       ("commitHistScore", PyVal.int 1), ("complexityScore", PyVal.int 2)]
      (fun _ => PostOutcome.resp 201 (PostBody.obj [("repoID", PyVal.str "r")]))).1
    = if 201 = 201 then echoRecord (PostBody.obj [("repoID", PyVal.str "r")]) else none :=
  ⟨(C4_create_metric_one_write_echo _ _ (by decide)).1,
   (C4_create_metric_one_write_echo _ _ (by decide)).2 201
     (PostBody.obj [("repoID", PyVal.str "r")]) rfl (by decide)⟩

/-- C5: `get_metric_by_keys` filters the store by equality on both key
fields and returns the first matching record, `None` when nothing
matches, and `None` on a raised exception or a non-200 status. -/
theorem C5_point_lookup (store : List Record) (rid iid : String) (st : Nat)
    (body : List Record) :
    (get_metric_by_keys rid iid (storeTransport store)).1
      = (store.filter (fun r => matchesEq r "repoID" rid && matchesEq r "importID" iid)).head?
    ∧ (get_metric_by_keys rid iid (fun _ => GetOutcome.exc)).1 = none
    ∧ (st ≠ 200 → (get_metric_by_keys rid iid (fun _ => GetOutcome.resp st body)).1 = none) := by
  refine ⟨get_metric_by_keys_store store rid iid, rfl, fun hs => ?_⟩
  unfold get_metric_by_keys
  simp [hs]

/-- C5 witness: a store with one matching record returns it; a 500
response yields `None`. -/
theorem C5_witness :
    (get_metric_by_keys "r" "i"
      (storeTransport [[("repoID", PyVal.str "x")],
                       [("repoID", PyVal.str "r"), ("importID", PyVal.str "i"),
                        ("commitHistScore", PyVal.int 9)]])).1
      = some [("repoID", PyVal.str "r"), ("importID", PyVal.str "i"),
              ("commitHistScore", PyVal.int 9)]
    ∧ (get_metric_by_keys "r" "i" (fun _ => GetOutcome.resp 500 [])).1 = none := by
  constructor
  · rw [(C5_point_lookup [[("repoID", PyVal.str "x")],
        [("repoID", PyVal.str "r"), ("importID", PyVal.str "i"),
         ("commitHistScore", PyVal.int 9)]] "r" "i" 500 []).1]
    decide
  · exact (C5_point_lookup [] "r" "i" 500 []).2.2 (by decide)

/-- C8: no public operation lets an exception escape: with a transport
that raises on every call, each operation returns exactly its declared
empty shape — `None` for `create_metric` and `get_metric_by_keys`, `[]`
for the list operations, and the zeroed summary dicts for the two summary
operations. -/
theorem C8_failures_absorbed (d : Record) (rid iid sf : String) (lim off mn mx : Int) :
    (create_metric d (fun _ => PostOutcome.exc)).1 = none
    ∧ (get_metric_by_keys rid iid (fun _ => GetOutcome.exc)).1 = none
    ∧ (get_metrics_by_repo rid lim off (fun _ => GetOutcome.exc)).1 = []
    ∧ (get_metrics_by_import iid lim off (fun _ => GetOutcome.exc)).1 = []
    ∧ (get_all_metrics lim off (fun _ => GetOutcome.exc)).1 = []
    ∧ (get_metrics_by_score_range sf mn mx (fun _ => GetOutcome.exc)).1 = []
    ∧ get_metrics_summary CountOutcome.exc (fun _ => GetOutcome.exc)
        = { total_count := 0, average_scores := [] }
    ∧ get_repo_metrics_summary rid (fun _ => GetOutcome.exc)
        = { repo_id := rid, metric_count := 0, average_scores := [] } := by
  refine ⟨?_, rfl, rfl, rfl, rfl, ?_, rfl, rfl⟩
  · unfold create_metric
    by_cases h1 : requiredPresent d <;>
      by_cases h2 : scoreIsIntAt d "commitHistScore" <;>
        by_cases h3 : scoreIsIntAt d "complexityScore" <;> simp [h1, h2, h3]
  · unfold get_metrics_by_score_range
    by_cases h : sf ∈ valid_score_fields <;> simp [h]

/-- C9: Python booleans pass the `isinstance(..., int)` validation: a
payload whose required fields are present, whose two required scores pass
the integer check, and where one of them is a `bool`, is posted to the
store rather than rejected. -/
theorem C9_bool_scores_accepted (d : Record) (post : PostTransport) (b : Bool)
    (cv xv : PyVal)
    (hreq : requiredPresent d = true)
    (hcv : rget d "commitHistScore" = some cv)
    (hxv : rget d "complexityScore" = some xv)
    (hci : isInstInt cv = true) (hxi : isInstInt xv = true)
    (_hbool : cv = PyVal.bool b ∨ xv = PyVal.bool b) :
    (create_metric d post).2 = [d] := by
  have h2 : scoreIsIntAt d "commitHistScore" = true := by
    simp [scoreIsIntAt, hcv, hci]
  have h3 : scoreIsIntAt d "complexityScore" = true := by
    simp [scoreIsIntAt, hxv, hxi]
  unfold create_metric
  simp only [hreq, h2, h3, not_true, if_false, Bool.true_eq_false, ite_false]
  cases hp : post d with
  | exc => rfl
  | resp st body =>
    by_cases hs : st = 201
    · cases body with
      | arr rs => cases rs <;> simp [hs]
      | obj r => simp [hs]
    · simp [hs]

/-- C9 witness: `commitHistScore = True` is accepted and the payload is
posted. -/
theorem C9_witness :
    (create_metric
      [("repoID", PyVal.str "r"), ("importID", PyVal.str "i"),
       ("commitHistScore", PyVal.bool true), ("complexityScore", PyVal.int 3)]
      (fun _ => PostOutcome.resp 201 (PostBody.obj []))).2
    = [[("repoID", PyVal.str "r"), ("importID", PyVal.str "i"),
        ("commitHistScore", PyVal.bool true), ("complexityScore", PyVal.int 3)]] :=
  C9_bool_scores_accepted _ _ true (PyVal.bool true) (PyVal.int 3)
    (by decide) (by decide) (by decide) (by decide) (by decide) (Or.inl rfl)

theorem get_metrics_summary_eq (cn : CountOutcome) (net : GetTransport) (t : Int)
    (hc : countTotal cn = Except.ok t)
    (hn : scoresNumeric (get_all_metrics 1000 0 net).1) :
    get_metrics_summary cn net
      = { total_count := t,
          average_scores := expectedAvgScores (get_all_metrics 1000 0 net).1 } := by
  unfold get_metrics_summary get_metrics_summary_try
  rw [hc]
  cases he : (get_all_metrics 1000 0 net).1.isEmpty with
  | true =>
    simp only [expectedAvgScores, he, if_true]
    rfl
  | false =>
    simp only [expectedAvgScores, he, Bool.false_eq_true, if_false]
    rw [buildAvgScores_ok (get_all_metrics 1000 0 net).1 score_fields hn]
    rfl

/-- C6: `get_metrics_summary` returns `{total_count, average_scores}`
where `average_scores` holds, for each of the five score fields, the
arithmetic mean of its non-null values over the up-to-1000 fetched
records (`None` for a field with no observation), and is `{}` when no
record was fetched. -/
theorem C6_summary_averages (cn : CountOutcome) (net : GetTransport) (t : Int)
    (hc : countTotal cn = Except.ok t)
    (hn : scoresNumeric (get_all_metrics 1000 0 net).1) :
    get_metrics_summary cn net
      = { total_count := t,
          average_scores := expectedAvgScores (get_all_metrics 1000 0 net).1 } :=
  get_metrics_summary_eq cn net t hc hn

/-- C6 witness: a store with one score-less record and a count header
reporting 7 rows yields `total_count = 7` and the expected averages. -/
theorem C6_witness :
    get_metrics_summary (CountOutcome.resp 200 (some "0-0/7"))
      (storeTransport [[("repoID", PyVal.str "r")]])
    = { total_count := 7,
        average_scores := expectedAvgScores
          (get_all_metrics 1000 0 (storeTransport [[("repoID", PyVal.str "r")]])).1 } :=
  C6_summary_averages _ _ 7 rfl (by decide)

/-- C10: when the count request fails non-exceptionally (non-200 status,
or a 200 response without a content-range header) while the records fetch
returns data, `get_metrics_summary` still returns `total_count = 0`
together with the fully populated five-entry `average_scores` mapping. -/
theorem C10_count_failure_partial_summary (st : Nat) (cr : Option String)
    (net : GetTransport)
    (hfail : st ≠ 200 ∨ cr = none)
    (hne : (get_all_metrics 1000 0 net).1 ≠ [])
    (hn : scoresNumeric (get_all_metrics 1000 0 net).1) :
    get_metrics_summary (CountOutcome.resp st cr) net
      = { total_count := 0,
          average_scores := score_fields.map (fun f =>
            ("avg_" ++ f, specMean (get_all_metrics 1000 0 net).1 f)) } := by
  have hc : countTotal (CountOutcome.resp st cr) = Except.ok 0 := by
    rcases hfail with h | h
    · simp only [countTotal, if_neg h]
    · rw [h]
      by_cases h2 : st = 200 <;> simp [countTotal, h2]
  have hee : (get_all_metrics 1000 0 net).1.isEmpty = false := by
    cases hl : (get_all_metrics 1000 0 net).1 with
    | nil => exact absurd hl hne
    | cons a as => rfl
  rw [get_metrics_summary_eq (CountOutcome.resp st cr) net 0 hc hn]
  simp only [expectedAvgScores, hee, Bool.false_eq_true, if_false]

/-- C10 witness: a 500 count response with no header against a one-record
store still yields all five average entries with `total_count = 0`. -/
theorem C10_witness :
    get_metrics_summary (CountOutcome.resp 500 none)
      (storeTransport [[("repoID", PyVal.str "r")]])
    = { total_count := 0,
        average_scores := score_fields.map (fun f => ("avg_" ++ f,
          specMean (get_all_metrics 1000 0 (storeTransport [[("repoID", PyVal.str "r")]])).1 f)) } :=
  C10_count_failure_partial_summary 500 none _ (Or.inl (by decide)) (by decide) (by decide)

/-- C2 (amended) witness: with one matching and one non-matching record
the summary carries the capped count 1 and the averages over the single
fetched record. -/
theorem C2_amended_witness :
    get_repo_metrics_summary "r"
      (storeTransport [[("repoID", PyVal.str "r")], [("repoID", PyVal.str "x")]])
      = { repo_id := "r",
          metric_count := min 100
            ((([[("repoID", PyVal.str "r")], [("repoID", PyVal.str "x")]] : List Record).filter
              (fun r => matchesEq r "repoID" "r")).length),
          average_scores := expectedAvgScores
            ((([[("repoID", PyVal.str "r")], [("repoID", PyVal.str "x")]] : List Record).filter
              (fun r => matchesEq r "repoID" "r")).take 100) } :=
  C2_repo_summary_count_capped _ "r" (by decide)

end MetricsRepo
